import Mathlib

/-!
Verification development for the filez-python-sdk client.

The Python client (`src/filez/filez.py`) is shallowly embedded: every public
method becomes a pure Lean function from the client state, a transport oracle
and the method arguments to a pair of the outcome (`Except FilezError _`) and
the list of HTTP requests the call issued.  The legacy duplicate module
(`src/filez/filez/filez.py`) is embedded separately where a claim depends on
it.  Python exceptions are mapped to the spec error taxonomy by the message the
source raises them with.
-/

/-- A JSON value, as produced by `response.json()` in the Python source. -/
inductive JsonVal where
  | null
  | bool (b : Bool)
  | num (n : Int)
  | str (s : String)
  | arr (xs : List JsonVal)
  | obj (kvs : List (String × JsonVal))
  deriving Repr, Inhabited

/-- Python `dict.get k` on a parsed JSON object: first binding of the key,
`None` (here `none`) when absent.  Non-object values have no `.get` in Python
(an `AttributeError` would escape); those are not modelled and return `none`. -/
def JsonVal.get : JsonVal → String → Option JsonVal
  | .obj kvs, k => kvs.lookup k
  | _, _ => none

/-- Python truthiness of a JSON value (`if not x` in the source). -/
def JsonVal.truthy : JsonVal → Bool
  | .null => false
  | .bool b => b
  | .num n => !(n == 0)
  | .str s => !(s == "")
  | .arr xs => !xs.isEmpty
  | .obj kvs => !kvs.isEmpty

/-- Python truthiness of an optional JSON value (`None` is falsy). -/
def pyTruthy : Option JsonVal → Bool
  | none => false
  | some v => v.truthy

mutual

/-- Python `json.dumps` with its default separators; string escaping of special
characters inside string content is not modelled (the source only dumps
identifiers and fixed keys). -/
def jsonRender : JsonVal → String
  | .null => "null"
  | .bool b => if b then "true" else "false"
  | .num n => toString n
  | .str s => "\"" ++ s ++ "\""
  | .arr xs => "[" ++ jsonRenderList xs ++ "]"
  | .obj kvs => "\x7b" ++ jsonRenderObj kvs ++ "\x7d"

def jsonRenderList : List JsonVal → String
  | [] => ""
  | [x] => jsonRender x
  | x :: xs => jsonRender x ++ ", " ++ jsonRenderList xs

def jsonRenderObj : List (String × JsonVal) → String
  | [] => ""
  | [kv] => "\"" ++ kv.1 ++ "\": " ++ jsonRender kv.2
  | kv :: kvs => "\"" ++ kv.1 ++ "\": " ++ jsonRender kv.2 ++ ", " ++ jsonRenderObj kvs

end

/-- JSON image of a Python optional int (`None` dumps as `null`). -/
def jOfOptInt : Option Int → JsonVal
  | none => .null
  | some n => .num n

/-- The spec error taxonomy.  The Python source raises bare `Exception`s; the
constructor is determined by the message raised (e.g. "请先获取token" is the
not-authenticated guard).  `remoteError` carries the exception payload: the raw
response text for the main client, a parsed JSON field for the legacy one. -/
inductive FilezError where
  | configError
  | notAuthenticatedError
  | authError
  | connectivityError
  | remoteError (payload : JsonVal)
  | validationError (msg : String)
  | unknownError
  deriving Repr

/-- Body of an outbound HTTP request: absent, url-encoded form fields, or the
fields of a multipart upload (the random multipart boundary of
`urllib3.encode_multipart_formdata` is not modelled; the field list is). -/
inductive RequestBody where
  | none
  | form (fields : List (String × String))
  | multipart (fields : List (String × String))
  deriving Repr, DecidableEq

/-- An outbound HTTP request as handed to `requests.request`.  Form-field
values are already stringified the way `requests` url-encodes them
(Python `str()` of the dict value). -/
structure HttpRequest where
  method : String
  url : String
  headers : List (String × String)
  body : RequestBody
  deriving Repr, DecidableEq

/-- An HTTP response: status code, raw text, and the parsed JSON body
(`response.json()`; a parse failure would raise outside every `try` block in
the source and is not modelled). -/
structure HttpResponse where
  status_code : Int
  text : String
  json : JsonVal
  deriving Repr

/-- Outcome of one `requests.request` call: a response, an exception of class
`ConnectionError` (the class named by the source's first `except` clause), or
any other exception. -/
inductive TransportResult where
  | resp (r : HttpResponse)
  | connErr
  | otherErr
  deriving Repr

/-- A transport oracle: what the network does with each request. -/
abbrev Transport := HttpRequest → TransportResult

/-- The `try/except` wrapper shared by every method of the source:
`except ConnectionError` raises the connectivity message ("url检测异常..."),
`except Exception` raises the unknown message ("未知异常"). -/
def sendRecv (tr : Transport) (req : HttpRequest) : Except FilezError HttpResponse :=
  match tr req with
  | .resp r => .ok r
  | .connErr => .error .connectivityError
  | .otherErr => .error .unknownError

/-- The shared tail of every main-client method: send, map `ConnectionError`
and other exceptions, raise `Exception(response.text)` on status ≠ 200, and
return `response.json()`.  Also records the single issued request. -/
def finishJson (tr : Transport) (req : HttpRequest) :
    Except FilezError JsonVal × List HttpRequest :=
  match sendRecv tr req with
  | .error e => (.error e, [req])
  | .ok r =>
      if r.status_code ≠ 200 then (.error (.remoteError (.str r.text)), [req])
      else (.ok r.json, [req])

/-- Like `finishJson` but returning the raw payload (`response.content` of
`file_download`, modelled by the response text). -/
def finishRaw (tr : Transport) (req : HttpRequest) :
    Except FilezError String × List HttpRequest :=
  match sendRecv tr req with
  | .error e => (.error e, [req])
  | .ok r =>
      if r.status_code ≠ 200 then (.error (.remoteError (.str r.text)), [req])
      else (.ok r.text, [req])

/-- UTF-8 bytes of one character. -/
def charBytes (c : Char) : List Nat :=
  let n := c.toNat
  if n < 128 then [n]
  else if n < 2048 then [192 + n / 64, 128 + n % 64]
  else if n < 65536 then [224 + n / 4096, 128 + n / 64 % 64, 128 + n % 64]
  else [240 + n / 262144, 128 + n / 4096 % 64, 128 + n / 64 % 64, 128 + n % 64]

/-- UTF-8 encoding of a string (`.encode("utf-8")` in the source). -/
def utf8Bytes (s : String) : List Nat :=
  (s.toList.map charBytes).flatten

/-- The base64 alphabet. -/
def b64Table : List Char :=
  "ABCDEFGHIJKLMNOPQRSTUVWXYZabcdefghijklmnopqrstuvwxyz0123456789+/".toList

/-- Character of a 6-bit group. -/
def b64char (n : Nat) : Char := b64Table.getD n '='

/-- Base64 of a byte list (RFC 4648, with `=` padding). -/
def b64encodeBytes : List Nat → String
  | [] => ""
  | [a] =>
      String.mk [b64char (a / 4), b64char (a % 4 * 16)] ++ "=="
  | [a, b] =>
      String.mk [b64char (a / 4), b64char (a % 4 * 16 + b / 16), b64char (b % 16 * 4)] ++ "="
  | a :: b :: c :: rest =>
      String.mk [b64char (a / 4), b64char (a % 4 * 16 + b / 16),
        b64char (b % 16 * 4 + c / 64), b64char (c % 64)] ++ b64encodeBytes rest

/-- Matches `base64.b64encode(s.encode("utf-8")).decode("utf-8")` of the source. -/
def b64encode (s : String) : String := b64encodeBytes (utf8Bytes s)

/-- The pydantic `UserInfo` model of `src/filez/schema.py`. -/
structure UserInfo where
  email : String
  mobile : Option String
  password : String
  quota : Option Int
  status : Option Int
  user_name : String
  user_slug : String
  deriving Repr, DecidableEq

/-- Python `user.dict()` passed as `requests` form data: fields in declaration order,
`None`-valued fields dropped (as `requests` drops them when url-encoding). -/
def userFormFields (u : UserInfo) : List (String × String) :=
  [("email", u.email)]
    ++ (match u.mobile with | some m => [("mobile", m)] | none => [])
    ++ [("password", u.password)]
    ++ (match u.quota with | some q => [("quota", toString q)] | none => [])
    ++ (match u.status with | some s => [("status", toString s)] | none => [])
    ++ [("user_name", u.user_name), ("user_slug", u.user_slug)]

/-- One entry of the `privileges` argument of `auth_create`: a Python dict
read with `.get`, hence both fields optional. -/
structure AuthPrivilege where
  uid : Option Int
  privilege : Option Int
  deriving Repr, DecidableEq

/-- The client state of `src/filez/filez.py`.  `access_token` starts as
Python `None` and is assigned the raw JSON value of the token response's
`access_token` field. -/
structure Filez where
  app_key : String
  app_secret : String
  https : Bool
  host : String
  version : String
  access_token : Option JsonVal
  base_url : String
  deriving Repr

/-- Embedding of `Filez.__init__`: rejects a falsy `app_key`, `app_secret` or `host`
(message "app_key,app_secret,host不能为空" — the spec `ConfigError`), else
stores the credentials and computes the base URL. -/
def Filez.init (app_key app_secret : String) (https : Bool) (host version : String) :
    Except FilezError Filez :=
  if app_key = "" ∨ app_secret = "" ∨ host = "" then .error .configError
  else .ok
    { app_key := app_key
      app_secret := app_secret
      https := https
      host := host
      version := version
      access_token := none
      base_url := "http" ++ (if https then "s" else "") ++ "://" ++ host ++ "/" ++ version }

/-- The `check_token` decorator: the guarded body runs only when
`self.access_token` is truthy; otherwise "请先获取token" (the spec
`NotAuthenticatedError`) is raised before anything else. -/
def check_token (tok : Option JsonVal) : Bool := pyTruthy tok

/-- The string used in `"Bearer " + self.access_token`: the stored token when
it is a string.  A truthy non-string token would raise a `TypeError` in
Python at this concatenation; that branch is not modelled (every theorem below
only uses string tokens). -/
def tokenStr : Option JsonVal → String
  | some (.str s) => s
  | _ => ""

/-- Embedding of `Filez.token`: Basic-auth POST of the client-credentials grant to
`<base>/oauth/token`; on 200 stores the `access_token` field when truthy,
else raises "token数据异常" (the spec `AuthError`). -/
def Filez.token (c : Filez) (tr : Transport) (slug : String) :
    Except FilezError Filez × List HttpRequest :=
  let authorization := b64encode (c.app_key ++ ":" ++ c.app_secret)
  let headers := [("Content-Type", "application/x-www-form-urlencoded"),
                  ("Authorization", "Basic " ++ authorization)]
  let payload := [("grant_type", "client_with_su"), ("scope", "all"), ("slug", slug)]
  let req : HttpRequest := ⟨"POST", c.base_url ++ "/oauth/token", headers, .form payload⟩
  match sendRecv tr req with
  | .error e => (.error e, [req])
  | .ok r =>
      if r.status_code ≠ 200 then (.error (.remoteError (.str r.text)), [req])
      else if !(pyTruthy (r.json.get "access_token")) then (.error .authError, [req])
      else (.ok { c with access_token := r.json.get "access_token" }, [req])

/-- Embedding of `Filez.user_create`: POST `<base>/user` with the user's form fields. -/
def Filez.user_create (c : Filez) (tr : Transport) (user : UserInfo) :
    Except FilezError JsonVal × List HttpRequest :=
  if check_token c.access_token then
    let headers := [("Content-Type", "application/x-www-form-urlencoded"),
                    ("Authorization", "Bearer " ++ tokenStr c.access_token)]
    finishJson tr ⟨"POST", c.base_url ++ "/user", headers, .form (userFormFields user)⟩
  else (.error .notAuthenticatedError, [])

/-- Embedding of `Filez.user_info`: GET `<base>/api/user` with the identifier appended only
when truthy; raises "uid和user_slug不能同时为空" (the spec `ValidationError`)
when both are `None`. -/
def Filez.user_info (c : Filez) (tr : Transport) (uid : Option Int) (user_slug : Option String) :
    Except FilezError JsonVal × List HttpRequest :=
  if check_token c.access_token then
    let url := c.base_url ++ "/api/user"
    if uid = none ∧ user_slug = none then
      (.error (.validationError "uid和user_slug不能同时为空"), [])
    else
      let url := match uid with
        | some u => if !(u == 0) then url ++ "/" ++ toString u else url
        | none => url
      let url := match user_slug with
        | some s => if !(s == "") then url ++ "/slug?user_slug=" ++ s else url
        | none => url
      let headers := [("Authorization", "Bearer " ++ tokenStr c.access_token)]
      finishJson tr ⟨"GET", url, headers, .none⟩
  else (.error .notAuthenticatedError, [])

/-- Embedding of `Filez.user_list`: GET `<base>/api/user?page_num=..&page_size=..`. -/
def Filez.user_list (c : Filez) (tr : Transport) (page_num page_size : Int) :
    Except FilezError JsonVal × List HttpRequest :=
  if check_token c.access_token then
    let url := c.base_url ++ "/api/user"
      ++ "?page_num=" ++ toString page_num ++ "&page_size=" ++ toString page_size
    let headers := [("Authorization", "Bearer " ++ tokenStr c.access_token)]
    finishJson tr ⟨"GET", url, headers, .none⟩
  else (.error .notAuthenticatedError, [])

/-- Embedding of `Filez.team_list`: GET `<base>/api/team`. -/
def Filez.team_list (c : Filez) (tr : Transport) :
    Except FilezError JsonVal × List HttpRequest :=
  if check_token c.access_token then
    let headers := [("Authorization", "Bearer " ++ tokenStr c.access_token)]
    finishJson tr ⟨"GET", c.base_url ++ "/api/team", headers, .none⟩
  else (.error .notAuthenticatedError, [])

/-- Embedding of `Filez.team_info`: GET `<base>/api/team/<tid>`. -/
def Filez.team_info (c : Filez) (tr : Transport) (tid : Int) :
    Except FilezError JsonVal × List HttpRequest :=
  if check_token c.access_token then
    let url := c.base_url ++ "/api/team/" ++ toString tid
    let headers := [("Authorization", "Bearer " ++ tokenStr c.access_token)]
    finishJson tr ⟨"GET", url, headers, .none⟩
  else (.error .notAuthenticatedError, [])

/-- Embedding of `Filez.team_user_list`: GET
`<base>/api/teamuser/<tid>/users?page_num=..&page_size=..`. -/
def Filez.team_user_list (c : Filez) (tr : Transport) (tid page_num page_size : Int) :
    Except FilezError JsonVal × List HttpRequest :=
  if check_token c.access_token then
    let url := c.base_url ++ "/api/teamuser/" ++ toString tid
      ++ "/users?page_num=" ++ toString page_num ++ "&page_size=" ++ toString page_size
    let headers := [("Authorization", "Bearer " ++ tokenStr c.access_token)]
    finishJson tr ⟨"GET", url, headers, .none⟩
  else (.error .notAuthenticatedError, [])

/-- Embedding of `Filez.file_list`: POST `<base>/api/file` with the path, the fixed
`path_type = "ent"`, and the stringified pagination fields. -/
def Filez.file_list (c : Filez) (tr : Transport) (path : String) (page_num page_size : Int) :
    Except FilezError JsonVal × List HttpRequest :=
  if check_token c.access_token then
    let headers := [("Content-Type", "application/x-www-form-urlencoded"),
                    ("Authorization", "Bearer " ++ tokenStr c.access_token)]
    let payload := [("path", path), ("path_type", "ent"),
                    ("page_num", toString page_num), ("page_size", toString page_size)]
    finishJson tr ⟨"POST", c.base_url ++ "/api/file", headers, .form payload⟩
  else (.error .notAuthenticatedError, [])

/-- Embedding of `Filez.file_info`: raises "neid和path不能同时为空" when both identifiers
are `None`; with a `neid`, GET `<base>/api/file/<neid>/?nsid=<nsid>` (with the
`nsid = 1` default applied), else POST `<base>/api/file/path` with the path. -/
def Filez.file_info (c : Filez) (tr : Transport)
    (neid : Option String) (nsid : Option Int) (path : Option String) :
    Except FilezError JsonVal × List HttpRequest :=
  if check_token c.access_token then
    let url := c.base_url ++ "/api/file"
    if neid = none ∧ path = none then
      (.error (.validationError "neid和path不能同时为空"), [])
    else
      let headers := [("Content-Type", "application/x-www-form-urlencoded"),
                      ("Authorization", "Bearer " ++ tokenStr c.access_token)]
      match neid with
      | some ne =>
          let nsid := match nsid with | none => 1 | some n => n
          let url := url ++ "/" ++ ne ++ "/?nsid=" ++ toString nsid
          finishJson tr ⟨"GET", url, headers, .none⟩
      | none =>
          let url := url ++ "/path"
          let payload := [("path", match path with | some p => p | none => "None"),
                          ("path_type", "ent")]
          finishJson tr ⟨"POST", url, headers, .form payload⟩
  else (.error .notAuthenticatedError, [])

/-- Embedding of `Filez.file_delete`: raises "neid不能为空" when `neid` is `None`; else
DELETE `<base>/api/file/<neid>?nsid=<nsid>` with the `nsid = 1` default. -/
def Filez.file_delete (c : Filez) (tr : Transport) (nsid : Option Int) (neid : Option String) :
    Except FilezError JsonVal × List HttpRequest :=
  if check_token c.access_token then
    let url := c.base_url ++ "/api/file"
    match neid with
    | none => (.error (.validationError "neid不能为空"), [])
    | some ne =>
        let nsid := match nsid with | none => 1 | some n => n
        let url := url ++ "/" ++ ne ++ "?nsid=" ++ toString nsid
        let headers := [("Content-Type", "application/x-www-form-urlencoded"),
                        ("Authorization", "Bearer " ++ tokenStr c.access_token)]
        finishJson tr ⟨"DELETE", url, headers, .none⟩
  else (.error .notAuthenticatedError, [])

/-- Embedding of `Filez.create_folder`: POST `<base>/api/file/folder`; a `None` `path_type`
defaults to `"ent"`. -/
def Filez.create_folder (c : Filez) (tr : Transport) (path : String) (path_type : Option String) :
    Except FilezError JsonVal × List HttpRequest :=
  if check_token c.access_token then
    let path_type := match path_type with | none => "ent" | some t => t
    let headers := [("Content-Type", "application/x-www-form-urlencoded"),
                    ("Authorization", "Bearer " ++ tokenStr c.access_token)]
    let payload := [("path", path), ("path_type", path_type)]
    finishJson tr ⟨"POST", c.base_url ++ "/api/file/folder", headers, .form payload⟩
  else (.error .notAuthenticatedError, [])

/-- Embedding of `Filez.file_copy`: POST `<base>/api/file/copy`; a `None` `to_path_type`
defaults to `"ent"`. -/
def Filez.file_copy (c : Filez) (tr : Transport)
    (from_nsid : Int) (from_neid : String) (to_path : String) (to_path_type : Option String) :
    Except FilezError JsonVal × List HttpRequest :=
  if check_token c.access_token then
    let headers := [("Content-Type", "application/x-www-form-urlencoded"),
                    ("Authorization", "Bearer " ++ tokenStr c.access_token)]
    let to_path_type := match to_path_type with | none => "ent" | some t => t
    let payload := [("nsid", toString from_nsid), ("from_neid", from_neid),
                    ("to_path", to_path), ("to_path_type", to_path_type)]
    finishJson tr ⟨"POST", c.base_url ++ "/api/file/copy", headers, .form payload⟩
  else (.error .notAuthenticatedError, [])

/-- Embedding of `Filez.file_move`: POST `<base>/api/file/move`; a `None` `to_path_type`
defaults to `"ent"`. -/
def Filez.file_move (c : Filez) (tr : Transport)
    (from_nsid : Int) (from_neid : String) (to_path : String) (to_path_type : Option String) :
    Except FilezError JsonVal × List HttpRequest :=
  if check_token c.access_token then
    let headers := [("Content-Type", "application/x-www-form-urlencoded"),
                    ("Authorization", "Bearer " ++ tokenStr c.access_token)]
    let to_path_type := match to_path_type with | none => "ent" | some t => t
    let payload := [("nsid", toString from_nsid), ("from_neid", from_neid),
                    ("to_path", to_path), ("to_path_type", to_path_type)]
    finishJson tr ⟨"POST", c.base_url ++ "/api/file/move", headers, .form payload⟩
  else (.error .notAuthenticatedError, [])

/-- Python `os.path.basename`, for paths with `/` separators. -/
def basename (p : String) : String := (p.splitOn "/").getLastD ""

/-- Embedding of `Filez.file_upload`: checks that the local file exists (raising
"文件不存在" otherwise), then POSTs the multipart form to
`<base>/api/file/content`.  The local filesystem is the oracle pair
`fileExists`/`fileBytes`; the multipart Content-Type's random boundary is not
modelled.  A `None` `path_type` defaults to `"ent"`. -/
def Filez.file_upload (c : Filez) (tr : Transport)
    (file_path to_path : String) (path_type : Option String)
    (fileExists : Bool) (fileBytes : String) :
    Except FilezError JsonVal × List HttpRequest :=
  if check_token c.access_token then
    let path_type := match path_type with | none => "ent" | some t => t
    if !fileExists then (.error (.validationError "文件不存在"), [])
    else
      let fields := [("filedata:filename", basename file_path), ("filedata", fileBytes),
                     ("path_type", path_type), ("path", to_path)]
      let headers := [("Content-Type", "multipart/form-data"),
                      ("Authorization", "Bearer " ++ tokenStr c.access_token)]
      finishJson tr ⟨"POST", c.base_url ++ "/api/file/content", headers, .multipart fields⟩
  else (.error .notAuthenticatedError, [])

/-- Embedding of `Filez.file_rename`: POST `<base>/api/file/rename`. -/
def Filez.file_rename (c : Filez) (tr : Transport)
    (nsid : Int) (from_neid to_file_name : String) :
    Except FilezError JsonVal × List HttpRequest :=
  if check_token c.access_token then
    let headers := [("Content-Type", "application/x-www-form-urlencoded"),
                    ("Authorization", "Bearer " ++ tokenStr c.access_token)]
    let payload := [("nsid", toString nsid), ("from_neid", from_neid),
                    ("to_file_name", to_file_name)]
    finishJson tr ⟨"POST", c.base_url ++ "/api/file/rename", headers, .form payload⟩
  else (.error .notAuthenticatedError, [])

/-- Embedding of `Filez.file_history`: GET `<base>/api/file/<neid>/revision?nsid=<nsid>`. -/
def Filez.file_history (c : Filez) (tr : Transport) (nsid : Int) (neid : String) :
    Except FilezError JsonVal × List HttpRequest :=
  if check_token c.access_token then
    let url := c.base_url ++ "/api/file/" ++ neid ++ "/revision?nsid=" ++ toString nsid
    let headers := [("Content-Type", "application/x-www-form-urlencoded"),
                    ("Authorization", "Bearer " ++ tokenStr c.access_token)]
    finishJson tr ⟨"GET", url, headers, .none⟩
  else (.error .notAuthenticatedError, [])

/-- Embedding of `Filez.file_preview`: GET `<base>/api/preview/<neid>?nsid=<nsid>`. -/
def Filez.file_preview (c : Filez) (tr : Transport) (nsid : Int) (neid : String) :
    Except FilezError JsonVal × List HttpRequest :=
  if check_token c.access_token then
    let url := c.base_url ++ "/api/preview/" ++ neid ++ "?nsid=" ++ toString nsid
    let headers := [("Content-Type", "application/x-www-form-urlencoded"),
                    ("Authorization", "Bearer " ++ tokenStr c.access_token)]
    finishJson tr ⟨"GET", url, headers, .none⟩
  else (.error .notAuthenticatedError, [])

/-- Embedding of `Filez.file_download`: GET
`<base>/api/file/content/download?neid=<neid>&nsid=<nsid>`, returning the raw
response payload. -/
def Filez.file_download (c : Filez) (tr : Transport) (nsid : Int) (neid : String) :
    Except FilezError String × List HttpRequest :=
  if check_token c.access_token then
    let url := c.base_url ++ "/api/file/content/download?neid=" ++ neid
      ++ "&nsid=" ++ toString nsid
    let headers := [("Content-Type", "application/x-www-form-urlencoded"),
                    ("Authorization", "Bearer " ++ tokenStr c.access_token)]
    finishRaw tr ⟨"GET", url, headers, .none⟩
  else (.error .notAuthenticatedError, [])

/-- The valid privilege codes of `auth_create`, in source order. -/
def validPrivileges : List Int := [2009, 2007, 2005, 2003, 2001, 1011, 1000]

/-- One item of the `auth_list` payload built by `auth_create`. -/
def authItem (item : AuthPrivilege) : JsonVal :=
  .obj [("agentId", jOfOptInt item.uid), ("agentType", .str "user"),
        ("isSubteamInheritable", .bool true), ("privilegeType", jOfOptInt item.privilege)]

/-- Embedding of `Filez.auth_create`: raises "path_type参数错误" when `path_type` is not
`ent`/`self`, then "privilege参数错误" when any entry's privilege code is
outside `validPrivileges`, both before any request; else POSTs the
`json.dumps`-encoded grant lists to `<base>/api/auth/batch_create`. -/
def Filez.auth_create (c : Filez) (tr : Transport)
    (nsid : Int) (path_type : String) (neid : String) (privileges : List AuthPrivilege) :
    Except FilezError JsonVal × List HttpRequest :=
  if check_token c.access_token then
    let headers := [("Content-Type", "application/x-www-form-urlencoded"),
                    ("Authorization", "Bearer " ++ tokenStr c.access_token)]
    if !(["ent", "self"].contains path_type) then
      (.error (.validationError "path_type参数错误"), [])
    else if !(privileges.all fun item =>
        match item.privilege with
        | some p => validPrivileges.contains p
        | none => false) then
      (.error (.validationError "privilege参数错误"), [])
    else
      let auth_list := privileges.map authItem
      let payload := [("nsid", toString nsid), ("path_type", path_type),
                      ("file_list", jsonRender (.arr [.obj [("neid", .str neid)]])),
                      ("auth_list", jsonRender (.arr auth_list))]
      finishJson tr ⟨"POST", c.base_url ++ "/api/auth/batch_create", headers, .form payload⟩
  else (.error .notAuthenticatedError, [])

/-- Embedding of `Filez.auth_delete`: raises "path_type参数错误" when `path_type` is not
`ent`/`self`; else DELETEs the `json.dumps`-encoded lists at
`<base>/api/auth/batch_delete`. -/
def Filez.auth_delete (c : Filez) (tr : Transport)
    (nsid : Int) (path_type : String) (neid : String) (uids : List Int) :
    Except FilezError JsonVal × List HttpRequest :=
  if check_token c.access_token then
    let headers := [("Content-Type", "application/x-www-form-urlencoded"),
                    ("Authorization", "Bearer " ++ tokenStr c.access_token)]
    if !(["ent", "self"].contains path_type) then
      (.error (.validationError "path_type参数错误"), [])
    else
      let user_list := uids.map fun uid =>
        JsonVal.obj [("agentId", .num uid), ("agentType", .str "user")]
      let payload := [("nsid", toString nsid), ("path_type", path_type),
                      ("file_list", jsonRender (.arr [.obj [("neid", .str neid)]])),
                      ("delete_list", jsonRender (.arr user_list))]
      finishJson tr ⟨"DELETE", c.base_url ++ "/api/auth/batch_delete", headers, .form payload⟩
  else (.error .notAuthenticatedError, [])

/-- Embedding of `Filez.auth_list`: raises "path_type参数错误" when `path_type` is not
`ent`/`self`; else POSTs the file list to `<base>/api/auth/list`. -/
def Filez.auth_list (c : Filez) (tr : Transport)
    (nsid : Int) (path_type : String) (neid : String) :
    Except FilezError JsonVal × List HttpRequest :=
  if check_token c.access_token then
    let headers := [("Content-Type", "application/x-www-form-urlencoded"),
                    ("Authorization", "Bearer " ++ tokenStr c.access_token)]
    if !(["ent", "self"].contains path_type) then
      (.error (.validationError "path_type参数错误"), [])
    else
      let payload := [("nsid", toString nsid), ("path_type", path_type),
                      ("file_list", jsonRender (.arr [.obj [("neid", .str neid)]]))]
      finishJson tr ⟨"POST", c.base_url ++ "/api/auth/list", headers, .form payload⟩
  else (.error .notAuthenticatedError, [])

/-- The client state of the legacy duplicate module
`src/filez/filez/filez.py`: credentials come from a config dict and every
method receives its URL as an argument. -/
structure LegacyFilez where
  app_key : String
  app_secret : String
  access_token : Option JsonVal
  deriving Repr

/-- Embedding of `user_create` of the legacy module: POST of the user's form fields to the
given URL; on status ≠ 200 it raises
`Exception(response.json().get("errmsg"))` — the parsed `errmsg` field (Python
`None`, here JSON `null`, when absent), not the raw response text. -/
def LegacyFilez.user_create (c : LegacyFilez) (tr : Transport) (url : String) (user : UserInfo) :
    Except FilezError JsonVal × List HttpRequest :=
  if check_token c.access_token then
    let headers := [("Content-Type", "application/x-www-form-urlencoded"),
                    ("Authorization", "Bearer " ++ tokenStr c.access_token)]
    let req : HttpRequest := ⟨"POST", url, headers, .form (userFormFields user)⟩
    match sendRecv tr req with
    | .error e => (.error e, [req])
    | .ok r =>
        if r.status_code ≠ 200 then
          (.error (.remoteError ((r.json.get "errmsg").getD .null)), [req])
        else (.ok r.json, [req])
  else (.error .notAuthenticatedError, [])

/-! ### Concrete fixtures used by witnesses and counterexamples -/

/-- A freshly constructed client (no token yet). -/
def demoClient : Filez :=
  { app_key := "k", app_secret := "s", https := false, host := "h", version := "v2",
    access_token := none, base_url := "http://h/v2" }

/-- The demo client after a successful token exchange for token "abc". -/
def demoAuthClient : Filez := { demoClient with access_token := some (.str "abc") }

/-- A demo user payload. -/
def demoUser : UserInfo :=
  { email := "u@example.com", mobile := none, password := "pw", quota := none,
    status := none, user_name := "u", user_slug := "u" }

/-- A 200 token response carrying access token "abc". -/
def okTokenResp : HttpResponse :=
  ⟨200, "\x7b\"access_token\": \"abc\"\x7d", .obj [("access_token", .str "abc")]⟩

/-- A 200 token response whose JSON object has no access_token field. -/
def emptyTokenResp : HttpResponse := ⟨200, "\x7b\x7d", .obj []⟩

/-- A 404 response whose body is a JSON object with an errmsg field. -/
def notFoundResp : HttpResponse :=
  ⟨404, "\x7b\"errmsg\": \"boom\"\x7d", .obj [("errmsg", .str "boom")]⟩

/-- A transport answering every request with the given response. -/
def respTr (r : HttpResponse) : Transport := fun _ => .resp r

/-- A transport raising a ConnectionError-class exception on every request. -/
def connTr : Transport := fun _ => .connErr

/-- A transport raising a non-ConnectionError exception on every request. -/
def exnTr : Transport := fun _ => .otherErr

/-- The legacy client holding token "abc". -/
def legacyAuthClient : LegacyFilez :=
  { app_key := "k", app_secret := "s", access_token := some (.str "abc") }

/-! ### Helper lemmas -/

/-- Helper: `finishJson` always records exactly the one request it was given. -/
theorem finishJson_trace (tr : Transport) (q : HttpRequest) : (finishJson tr q).2 = [q] := by
  unfold finishJson sendRecv
  cases tr q with
  | resp r =>
      dsimp only
      split <;> rfl
  | connErr => rfl
  | otherErr => rfl

/-- Helper: `finishRaw` always records exactly the one request it was given. -/
theorem finishRaw_trace (tr : Transport) (q : HttpRequest) : (finishRaw tr q).2 = [q] := by
  unfold finishRaw sendRecv
  cases tr q with
  | resp r =>
      dsimp only
      split <;> rfl
  | connErr => rfl
  | otherErr => rfl

/-- Helper: `finishJson` never produces a validation error. -/
theorem finishJson_not_validation (tr : Transport) (q : HttpRequest) (msg : String) :
    (finishJson tr q).1 ≠ .error (.validationError msg) := by
  unfold finishJson sendRecv
  cases tr q with
  | resp r =>
      dsimp only
      split <;> simp
  | connErr => simp
  | otherErr => simp

/-- On a transport that always returns response `r` with `r.status_code ≠ 200`,
`finishJson` fails with the remote error carrying the raw response text. -/
theorem finishJson_remote (tr : Transport) (r : HttpResponse) (htr : ∀ q, tr q = .resp r)
    (hst : r.status_code ≠ 200) (q : HttpRequest) :
    (finishJson tr q).1 = .error (.remoteError (.str r.text)) := by
  unfold finishJson sendRecv
  rw [htr q]
  simp [hst]

/-- Like `finishJson_remote`, for the raw-payload tail. -/
theorem finishRaw_remote (tr : Transport) (r : HttpResponse) (htr : ∀ q, tr q = .resp r)
    (hst : r.status_code ≠ 200) (q : HttpRequest) :
    (finishRaw tr q).1 = .error (.remoteError (.str r.text)) := by
  unfold finishRaw sendRecv
  rw [htr q]
  simp [hst]

/-- On a transport that always raises a ConnectionError-class exception,
`finishJson` fails with the connectivity error. -/
theorem finishJson_conn (tr : Transport) (htr : ∀ q, tr q = .connErr) (q : HttpRequest) :
    (finishJson tr q).1 = .error .connectivityError := by
  unfold finishJson sendRecv
  rw [htr q]

/-- On a transport that always raises some other exception, `finishJson`
fails with the unknown error. -/
theorem finishJson_unknown (tr : Transport) (htr : ∀ q, tr q = .otherErr) (q : HttpRequest) :
    (finishJson tr q).1 = .error .unknownError := by
  unfold finishJson sendRecv
  rw [htr q]

/-- Helper: `finishRaw` on a ConnectionError transport. -/
theorem finishRaw_conn (tr : Transport) (htr : ∀ q, tr q = .connErr) (q : HttpRequest) :
    (finishRaw tr q).1 = .error .connectivityError := by
  unfold finishRaw sendRecv
  rw [htr q]

/-- Helper: `finishRaw` on an unknown-exception transport. -/
theorem finishRaw_unknown (tr : Transport) (htr : ∀ q, tr q = .otherErr) (q : HttpRequest) :
    (finishRaw tr q).1 = .error .unknownError := by
  unfold finishRaw sendRecv
  rw [htr q]

/-! ### Claims -/

/-- Claim C1: every resource operation (user_create, user_info, user_list,
team_list, team_info, team_user_list, file_list, file_info, file_delete,
create_folder, file_copy, file_move, file_upload, file_rename, file_history,
file_preview, file_download, auth_create, auth_delete, auth_list) called on a
client whose token was never acquired (access_token unset) fails with the
NotAuthenticatedError and issues no request (empty trace). -/
theorem c1_unauthenticated_guard (c : Filez) (h : c.access_token = none) :
    (∀ tr user, c.user_create tr user = (.error .notAuthenticatedError, [])) ∧
    (∀ tr uid user_slug, c.user_info tr uid user_slug = (.error .notAuthenticatedError, [])) ∧
    (∀ tr pn ps, c.user_list tr pn ps = (.error .notAuthenticatedError, [])) ∧
    (∀ tr, c.team_list tr = (.error .notAuthenticatedError, [])) ∧
    (∀ tr tid, c.team_info tr tid = (.error .notAuthenticatedError, [])) ∧
    (∀ tr tid pn ps, c.team_user_list tr tid pn ps = (.error .notAuthenticatedError, [])) ∧
    (∀ tr path pn ps, c.file_list tr path pn ps = (.error .notAuthenticatedError, [])) ∧
    (∀ tr neid nsid path, c.file_info tr neid nsid path = (.error .notAuthenticatedError, [])) ∧
    (∀ tr nsid neid, c.file_delete tr nsid neid = (.error .notAuthenticatedError, [])) ∧
    (∀ tr path pt, c.create_folder tr path pt = (.error .notAuthenticatedError, [])) ∧
    (∀ tr n ne p pt, c.file_copy tr n ne p pt = (.error .notAuthenticatedError, [])) ∧
    (∀ tr n ne p pt, c.file_move tr n ne p pt = (.error .notAuthenticatedError, [])) ∧
    (∀ tr fp tp pt fe fb, c.file_upload tr fp tp pt fe fb = (.error .notAuthenticatedError, [])) ∧
    (∀ tr n ne tn, c.file_rename tr n ne tn = (.error .notAuthenticatedError, [])) ∧
    (∀ tr n ne, c.file_history tr n ne = (.error .notAuthenticatedError, [])) ∧
    (∀ tr n ne, c.file_preview tr n ne = (.error .notAuthenticatedError, [])) ∧
    (∀ tr n ne, c.file_download tr n ne = (.error .notAuthenticatedError, [])) ∧
    (∀ tr n pt ne privs, c.auth_create tr n pt ne privs = (.error .notAuthenticatedError, [])) ∧
    (∀ tr n pt ne uids, c.auth_delete tr n pt ne uids = (.error .notAuthenticatedError, [])) ∧
    (∀ tr n pt ne, c.auth_list tr n pt ne = (.error .notAuthenticatedError, [])) := by
  repeat constructor
  all_goals intros
  all_goals simp [Filez.user_create, Filez.user_info, Filez.user_list, Filez.team_list,
    Filez.team_info, Filez.team_user_list, Filez.file_list, Filez.file_info,
    Filez.file_delete, Filez.create_folder, Filez.file_copy, Filez.file_move,
    Filez.file_upload, Filez.file_rename, Filez.file_history, Filez.file_preview,
    Filez.file_download, Filez.auth_create, Filez.auth_delete, Filez.auth_list,
    check_token, pyTruthy, h]

/-- Witness for C1: the freshly constructed demo client has no token, and
team_list on it fails with the NotAuthenticatedError issuing no request. -/
theorem c1_unauthenticated_guard_witness :
    demoClient.access_token = none ∧
    demoClient.team_list connTr = (.error .notAuthenticatedError, []) :=
  ⟨rfl, (c1_unauthenticated_guard demoClient rfl).2.2.2.1 connTr⟩

/-- Claim C3: a token exchange that gets HTTP 200 with a JSON object body
lacking the access_token field fails with the AuthError; the result is an
error, so the caller's client is not moved to the authenticated state by this
call. -/
theorem c3_token_missing_field (c : Filez) (tr : Transport) (slug : String)
    (r : HttpResponse) (kvs : List (String × JsonVal))
    (htr : ∀ q, tr q = .resp r) (hst : r.status_code = 200)
    (hjson : r.json = .obj kvs) (hmiss : kvs.lookup "access_token" = none) :
    (c.token tr slug).1 = .error .authError := by
  simp [Filez.token, sendRecv, htr, hst, hjson, JsonVal.get, hmiss, pyTruthy]

/-- Witness for C3 at a concrete 200-with-empty-object response. -/
theorem c3_token_missing_field_witness :
    (∀ q, respTr emptyTokenResp q = .resp emptyTokenResp) ∧
    emptyTokenResp.status_code = 200 ∧
    emptyTokenResp.json = .obj [] ∧
    (demoClient.token (respTr emptyTokenResp) "admin").1 = .error .authError :=
  ⟨fun _ => rfl, rfl, rfl,
    c3_token_missing_field demoClient (respTr emptyTokenResp) "admin" emptyTokenResp []
      (fun _ => rfl) rfl rfl rfl⟩

/-- Claim C8: construction with any of app_key, app_secret, host missing
(falsy, i.e. the empty string) fails with the ConfigError; with all three
present it succeeds and stores the credentials unchanged (and the computed
base URL). -/
theorem c8_config_check (app_key app_secret : String) (https : Bool) (host version : String) :
    (app_key = "" ∨ app_secret = "" ∨ host = "" →
      Filez.init app_key app_secret https host version = .error .configError) ∧
    (app_key ≠ "" → app_secret ≠ "" → host ≠ "" →
      Filez.init app_key app_secret https host version = .ok
        { app_key := app_key, app_secret := app_secret, https := https, host := host,
          version := version, access_token := none,
          base_url := "http" ++ (if https then "s" else "") ++ "://" ++ host ++ "/" ++ version }) := by
  constructor
  · intro h
    simp [Filez.init, h]
  · intro h1 h2 h3
    simp [Filez.init, h1, h2, h3]

/-- Witness for C8: a missing app_key yields the ConfigError, and the full
demo credential set constructs the demo client. -/
theorem c8_config_check_witness :
    (("" : String) = "" ∨ ("s" : String) = "" ∨ ("h" : String) = "") ∧
    Filez.init "" "s" false "h" "v2" = .error .configError ∧
    (("k" : String) ≠ "" ∧ ("s" : String) ≠ "" ∧ ("h" : String) ≠ "") ∧
    Filez.init "k" "s" false "h" "v2" = .ok demoClient :=
  ⟨Or.inl rfl, (c8_config_check "" "s" false "h" "v2").1 (Or.inl rfl),
    ⟨by decide, by decide, by decide⟩,
    (c8_config_check "k" "s" false "h" "v2").2 (by decide) (by decide) (by decide)⟩

/-- Claim C10: user_info with uid = 0 and user_slug = None on an
authenticated client does not fail with the both-identifiers-missing
validation error; the request goes out, and it goes to the bare
user-collection endpoint `<base>/api/user` with neither identifier appended
(Python appends only truthy identifiers, and 0 is falsy). -/
theorem c10_uid_zero_falsy (c : Filez) (tr : Transport)
    (hcheck : check_token c.access_token = true) :
    (c.user_info tr (some 0) none).2.map (fun q => (q.method, q.url))
      = [("GET", c.base_url ++ "/api/user")] ∧
    ∀ msg, (c.user_info tr (some 0) none).1 ≠ .error (.validationError msg) := by
  constructor
  · simp [Filez.user_info, hcheck, finishJson_trace]
  · intro msg
    simp [Filez.user_info, hcheck, finishJson_not_validation]

/-- Witness for C10 on the authenticated demo client. -/
theorem c10_uid_zero_falsy_witness :
    check_token demoAuthClient.access_token = true ∧
    (demoAuthClient.user_info connTr (some 0) none).2.map (fun q => (q.method, q.url))
      = [("GET", "http://h/v2" ++ "/api/user")] :=
  ⟨rfl, (c10_uid_zero_falsy demoAuthClient connTr rfl).1⟩

/-- Claim C6: input validation happens before any network call on an
authenticated client: user_info with both identifiers absent, file_info with
both identifiers absent, auth_create with a path_type outside ent/self, and
auth_create with any privileges entry whose code is outside
{1000, 1011, 2001, 2003, 2005, 2007, 2009} (i.e. `validPrivileges`) each fail
with the ValidationError and an empty request trace. -/
theorem c6_validation_before_network (c : Filez) (hcheck : check_token c.access_token = true) :
    (∀ tr, c.user_info tr none none
        = (.error (.validationError "uid和user_slug不能同时为空"), [])) ∧
    (∀ tr nsid, c.file_info tr none nsid none
        = (.error (.validationError "neid和path不能同时为空"), [])) ∧
    (∀ tr nsid path_type neid privs, (["ent", "self"] : List String).contains path_type = false →
      c.auth_create tr nsid path_type neid privs
        = (.error (.validationError "path_type参数错误"), [])) ∧
    (∀ tr nsid path_type neid privs item p,
      (["ent", "self"] : List String).contains path_type = true →
      item ∈ privs → item.privilege = some p → validPrivileges.contains p = false →
      c.auth_create tr nsid path_type neid privs
        = (.error (.validationError "privilege参数错误"), [])) := by
  refine ⟨?_, ?_, ?_, ?_⟩
  · intro tr
    simp [Filez.user_info, hcheck]
  · intro tr nsid
    simp [Filez.file_info, hcheck]
  · intro tr nsid path_type neid privs hpt
    unfold Filez.auth_create
    rw [if_pos hcheck]
    dsimp only
    rw [if_pos (by rw [hpt]; rfl)]
  · intro tr nsid path_type neid privs item p hpt hmem hpriv hbad
    have hall : (privs.all fun item =>
        match item.privilege with
        | some p => validPrivileges.contains p
        | none => false) = false := by
      rw [List.all_eq_false]
      refine ⟨item, hmem, ?_⟩
      simp only [hpriv]
      simpa using hbad
    unfold Filez.auth_create
    rw [if_pos hcheck]
    dsimp only
    rw [if_neg (by rw [hpt]; simp), if_pos (by rw [hall]; rfl)]

/-- Witness for C6 on the authenticated demo client: both-identifiers-missing
user lookups, a bad path_type, and a privilege code 99 outside the fixed set
each fail with the ValidationError and no request. -/
theorem c6_validation_before_network_witness :
    check_token demoAuthClient.access_token = true ∧
    demoAuthClient.user_info connTr none none
      = (.error (.validationError "uid和user_slug不能同时为空"), []) ∧
    demoAuthClient.file_info connTr none none none
      = (.error (.validationError "neid和path不能同时为空"), []) ∧
    demoAuthClient.auth_create connTr 1 "bad" "n1" []
      = (.error (.validationError "path_type参数错误"), []) ∧
    demoAuthClient.auth_create connTr 1 "ent" "n1" [⟨some 82, some 99⟩]
      = (.error (.validationError "privilege参数错误"), []) :=
  ⟨rfl,
    (c6_validation_before_network demoAuthClient rfl).1 connTr,
    (c6_validation_before_network demoAuthClient rfl).2.1 connTr none,
    (c6_validation_before_network demoAuthClient rfl).2.2.1 connTr 1 "bad" "n1" []
      (by decide),
    (c6_validation_before_network demoAuthClient rfl).2.2.2 connTr 1 "ent" "n1"
      [⟨some 82, some 99⟩] ⟨some 82, some 99⟩ 99 (by decide) (by decide) rfl (by decide)⟩

/-- Claim C7: file_list always issues exactly one request whose form body is
exactly the four fields path, path_type = "ent", and the stringified
page_num and page_size, in that order and with nothing else. -/
theorem c7_file_list_params (c : Filez) (tr : Transport) (path : String) (pn ps : Int)
    (hcheck : check_token c.access_token = true) :
    (c.file_list tr path pn ps).2.map HttpRequest.body
      = [.form [("path", path), ("path_type", "ent"),
                ("page_num", toString pn), ("page_size", toString ps)]] := by
  simp [Filez.file_list, hcheck, finishJson_trace]

/-- Witness for C7 at path "/a/b", page_num 0, page_size 10: the decoded body
is exactly the four fields with "0" and "10". -/
theorem c7_file_list_params_witness :
    check_token demoAuthClient.access_token = true ∧
    (demoAuthClient.file_list connTr "/a/b" 0 10).2.map HttpRequest.body
      = [.form [("path", "/a/b"), ("path_type", "ent"),
                ("page_num", "0"), ("page_size", "10")]] :=
  ⟨rfl, c7_file_list_params demoAuthClient connTr "/a/b" 0 10 rfl⟩

/-- Claim C2: a token exchange answered with HTTP 200 and a non-empty
access_token t moves the client to the authenticated state (access_token =
t), and on such a client every request issued by every resource operation
carries the header Authorization: Bearer t. -/
theorem c2_token_success_bearer (c : Filez) (tr : Transport) (slug t : String)
    (r : HttpResponse) (htr : ∀ q, tr q = .resp r) (hst : r.status_code = 200)
    (hget : r.json.get "access_token" = some (.str t)) (hne : t ≠ "") :
    (c.token tr slug).1 = .ok { c with access_token := some (.str t) } ∧
    ∀ cA : Filez, cA.access_token = some (.str t) →
      (∀ tr2 user, ∀ q ∈ (cA.user_create tr2 user).2,
        ("Authorization", "Bearer " ++ t) ∈ q.headers) ∧
      (∀ tr2 uid uslug, ∀ q ∈ (cA.user_info tr2 uid uslug).2,
        ("Authorization", "Bearer " ++ t) ∈ q.headers) ∧
      (∀ tr2 pn ps, ∀ q ∈ (cA.user_list tr2 pn ps).2,
        ("Authorization", "Bearer " ++ t) ∈ q.headers) ∧
      (∀ tr2, ∀ q ∈ (cA.team_list tr2).2,
        ("Authorization", "Bearer " ++ t) ∈ q.headers) ∧
      (∀ tr2 tid, ∀ q ∈ (cA.team_info tr2 tid).2,
        ("Authorization", "Bearer " ++ t) ∈ q.headers) ∧
      (∀ tr2 tid pn ps, ∀ q ∈ (cA.team_user_list tr2 tid pn ps).2,
        ("Authorization", "Bearer " ++ t) ∈ q.headers) ∧
      (∀ tr2 path pn ps, ∀ q ∈ (cA.file_list tr2 path pn ps).2,
        ("Authorization", "Bearer " ++ t) ∈ q.headers) ∧
      (∀ tr2 neid nsid path, ∀ q ∈ (cA.file_info tr2 neid nsid path).2,
        ("Authorization", "Bearer " ++ t) ∈ q.headers) ∧
      (∀ tr2 nsid neid, ∀ q ∈ (cA.file_delete tr2 nsid neid).2,
        ("Authorization", "Bearer " ++ t) ∈ q.headers) ∧
      (∀ tr2 path pt, ∀ q ∈ (cA.create_folder tr2 path pt).2,
        ("Authorization", "Bearer " ++ t) ∈ q.headers) ∧
      (∀ tr2 n ne p pt, ∀ q ∈ (cA.file_copy tr2 n ne p pt).2,
        ("Authorization", "Bearer " ++ t) ∈ q.headers) ∧
      (∀ tr2 n ne p pt, ∀ q ∈ (cA.file_move tr2 n ne p pt).2,
        ("Authorization", "Bearer " ++ t) ∈ q.headers) ∧
      (∀ tr2 fp tp pt fe fb, ∀ q ∈ (cA.file_upload tr2 fp tp pt fe fb).2,
        ("Authorization", "Bearer " ++ t) ∈ q.headers) ∧
      (∀ tr2 n ne tn, ∀ q ∈ (cA.file_rename tr2 n ne tn).2,
        ("Authorization", "Bearer " ++ t) ∈ q.headers) ∧
      (∀ tr2 n ne, ∀ q ∈ (cA.file_history tr2 n ne).2,
        ("Authorization", "Bearer " ++ t) ∈ q.headers) ∧
      (∀ tr2 n ne, ∀ q ∈ (cA.file_preview tr2 n ne).2,
        ("Authorization", "Bearer " ++ t) ∈ q.headers) ∧
      (∀ tr2 n ne, ∀ q ∈ (cA.file_download tr2 n ne).2,
        ("Authorization", "Bearer " ++ t) ∈ q.headers) ∧
      (∀ tr2 n pt ne privs, ∀ q ∈ (cA.auth_create tr2 n pt ne privs).2,
        ("Authorization", "Bearer " ++ t) ∈ q.headers) ∧
      (∀ tr2 n pt ne uids, ∀ q ∈ (cA.auth_delete tr2 n pt ne uids).2,
        ("Authorization", "Bearer " ++ t) ∈ q.headers) ∧
      (∀ tr2 n pt ne, ∀ q ∈ (cA.auth_list tr2 n pt ne).2,
        ("Authorization", "Bearer " ++ t) ∈ q.headers) := by
  constructor
  · simp [Filez.token, sendRecv, htr, hst, hget, pyTruthy, JsonVal.truthy, hne]
  · intro cA hcA
    have hchk : check_token cA.access_token = true := by
      simp [check_token, pyTruthy, hcA, JsonVal.truthy, hne]
    have htok : tokenStr cA.access_token = t := by
      rw [hcA]
      simp [tokenStr]
    refine ⟨?_, ?_, ?_, ?_, ?_, ?_, ?_, ?_, ?_, ?_, ?_, ?_, ?_, ?_, ?_, ?_, ?_, ?_, ?_, ?_⟩
    · intro tr2 user q hq
      unfold Filez.user_create at hq
      rw [if_pos hchk] at hq
      simp [finishJson_trace] at hq
      subst hq
      simp [htok]
    · intro tr2 uid uslug q hq
      unfold Filez.user_info at hq
      rw [if_pos hchk] at hq
      dsimp only at hq
      split at hq
      · simp at hq
      · simp [finishJson_trace] at hq
        subst hq
        simp [htok]
    · intro tr2 pn ps q hq
      unfold Filez.user_list at hq
      rw [if_pos hchk] at hq
      simp [finishJson_trace] at hq
      subst hq
      simp [htok]
    · intro tr2 q hq
      unfold Filez.team_list at hq
      rw [if_pos hchk] at hq
      simp [finishJson_trace] at hq
      subst hq
      simp [htok]
    · intro tr2 tid q hq
      unfold Filez.team_info at hq
      rw [if_pos hchk] at hq
      simp [finishJson_trace] at hq
      subst hq
      simp [htok]
    · intro tr2 tid pn ps q hq
      unfold Filez.team_user_list at hq
      rw [if_pos hchk] at hq
      simp [finishJson_trace] at hq
      subst hq
      simp [htok]
    · intro tr2 path pn ps q hq
      unfold Filez.file_list at hq
      rw [if_pos hchk] at hq
      simp [finishJson_trace] at hq
      subst hq
      simp [htok]
    · intro tr2 neid nsid path q hq
      unfold Filez.file_info at hq
      rw [if_pos hchk] at hq
      dsimp only at hq
      split at hq
      · simp at hq
      · split at hq
        · simp [finishJson_trace] at hq
          subst hq
          simp [htok]
        · simp [finishJson_trace] at hq
          subst hq
          simp [htok]
    · intro tr2 nsid neid q hq
      unfold Filez.file_delete at hq
      rw [if_pos hchk] at hq
      dsimp only at hq
      split at hq
      · simp at hq
      · simp [finishJson_trace] at hq
        subst hq
        simp [htok]
    · intro tr2 path pt q hq
      unfold Filez.create_folder at hq
      rw [if_pos hchk] at hq
      simp [finishJson_trace] at hq
      subst hq
      simp [htok]
    · intro tr2 n ne p pt q hq
      unfold Filez.file_copy at hq
      rw [if_pos hchk] at hq
      simp [finishJson_trace] at hq
      subst hq
      simp [htok]
    · intro tr2 n ne p pt q hq
      unfold Filez.file_move at hq
      rw [if_pos hchk] at hq
      simp [finishJson_trace] at hq
      subst hq
      simp [htok]
    · intro tr2 fp tp pt fe fb q hq
      unfold Filez.file_upload at hq
      rw [if_pos hchk] at hq
      dsimp only at hq
      split at hq
      · simp at hq
      · simp [finishJson_trace] at hq
        subst hq
        simp [htok]
    · intro tr2 n ne tn q hq
      unfold Filez.file_rename at hq
      rw [if_pos hchk] at hq
      simp [finishJson_trace] at hq
      subst hq
      simp [htok]
    · intro tr2 n ne q hq
      unfold Filez.file_history at hq
      rw [if_pos hchk] at hq
      simp [finishJson_trace] at hq
      subst hq
      simp [htok]
    · intro tr2 n ne q hq
      unfold Filez.file_preview at hq
      rw [if_pos hchk] at hq
      simp [finishJson_trace] at hq
      subst hq
      simp [htok]
    · intro tr2 n ne q hq
      unfold Filez.file_download at hq
      rw [if_pos hchk] at hq
      simp [finishRaw_trace] at hq
      subst hq
      simp [htok]
    · intro tr2 n pt ne privs q hq
      unfold Filez.auth_create at hq
      rw [if_pos hchk] at hq
      dsimp only at hq
      split at hq
      · simp at hq
      · split at hq
        · simp at hq
        · simp [finishJson_trace] at hq
          subst hq
          simp [htok]
    · intro tr2 n pt ne uids q hq
      unfold Filez.auth_delete at hq
      rw [if_pos hchk] at hq
      dsimp only at hq
      split at hq
      · simp at hq
      · simp [finishJson_trace] at hq
        subst hq
        simp [htok]
    · intro tr2 n pt ne q hq
      unfold Filez.auth_list at hq
      rw [if_pos hchk] at hq
      dsimp only at hq
      split at hq
      · simp at hq
      · simp [finishJson_trace] at hq
        subst hq
        simp [htok]

/-- Witness for C2: token "abc" on the demo client, then team_list's request
carries Authorization: Bearer abc. -/
theorem c2_token_success_bearer_witness :
    okTokenResp.status_code = 200 ∧
    okTokenResp.json.get "access_token" = some (.str "abc") ∧
    ("abc" : String) ≠ "" ∧
    (demoClient.token (respTr okTokenResp) "admin").1 = .ok demoAuthClient ∧
    (∀ q ∈ (demoAuthClient.team_list connTr).2,
      ("Authorization", "Bearer " ++ "abc") ∈ q.headers) := by
  have h := c2_token_success_bearer demoClient (respTr okTokenResp) "admin" "abc"
    okTokenResp (fun _ => rfl) rfl rfl (by decide)
  exact ⟨rfl, rfl, by decide, h.1, (h.2 demoAuthClient rfl).2.2.2.1 connTr⟩

/-- An error tail helper: when the transport step already failed, the finish
step returns that error. -/
theorem finishJson_error (tr : Transport) (e : FilezError)
    (h : ∀ q, sendRecv tr q = .error e) (q : HttpRequest) :
    (finishJson tr q).1 = .error e := by
  unfold finishJson
  rw [h]

/-- Helper: `finishRaw` analogue of `finishJson_error`. -/
theorem finishRaw_error (tr : Transport) (e : FilezError)
    (h : ∀ q, sendRecv tr q = .error e) (q : HttpRequest) :
    (finishRaw tr q).1 = .error e := by
  unfold finishRaw
  rw [h]

/-- Counterexample to C4 as stated: in the legacy duplicate module
(src/filez/filez/filez.py), user_create against a 404 whose body is the JSON
text containing an errmsg field fails with a RemoteError carrying the parsed
errmsg value "boom", which is not the raw response body. -/
theorem c4_legacy_errmsg_counterexample :
    (legacyAuthClient.user_create (respTr notFoundResp) "http://h/v2/user" demoUser).1
      = .error (.remoteError (.str "boom")) ∧
    ("boom" : String) ≠ notFoundResp.text := by
  constructor
  · rfl
  · decide

/-- Claim C4 (amended): for the main client (src/filez/filez.py), every
operation that reaches the network and gets a response with status ≠ 200
fails with a RemoteError carrying exactly the raw response body; in
particular team_info(99) on a 404 does.  The legacy duplicate module instead
carries the parsed errmsg field of the body (see the counterexample). -/
theorem c4_remote_error_raw_body (c : Filez) (hchk : check_token c.access_token = true)
    (r : HttpResponse) (hst : r.status_code ≠ 200)
    (tr : Transport) (htr : ∀ q, tr q = .resp r) :
    (∀ slug, (c.token tr slug).1 = .error (.remoteError (.str r.text))) ∧
    (∀ user, (c.user_create tr user).1 = .error (.remoteError (.str r.text))) ∧
    (∀ uid uslug, ¬(uid = none ∧ uslug = none) →
      (c.user_info tr uid uslug).1 = .error (.remoteError (.str r.text))) ∧
    (∀ pn ps, (c.user_list tr pn ps).1 = .error (.remoteError (.str r.text))) ∧
    ((c.team_list tr).1 = .error (.remoteError (.str r.text))) ∧
    (∀ tid, (c.team_info tr tid).1 = .error (.remoteError (.str r.text))) ∧
    (∀ tid pn ps, (c.team_user_list tr tid pn ps).1 = .error (.remoteError (.str r.text))) ∧
    (∀ path pn ps, (c.file_list tr path pn ps).1 = .error (.remoteError (.str r.text))) ∧
    (∀ neid nsid path, ¬(neid = none ∧ path = none) →
      (c.file_info tr neid nsid path).1 = .error (.remoteError (.str r.text))) ∧
    (∀ nsid ne, (c.file_delete tr nsid (some ne)).1 = .error (.remoteError (.str r.text))) ∧
    (∀ path pt, (c.create_folder tr path pt).1 = .error (.remoteError (.str r.text))) ∧
    (∀ n ne p pt, (c.file_copy tr n ne p pt).1 = .error (.remoteError (.str r.text))) ∧
    (∀ n ne p pt, (c.file_move tr n ne p pt).1 = .error (.remoteError (.str r.text))) ∧
    (∀ fp tp pt fb, (c.file_upload tr fp tp pt true fb).1 = .error (.remoteError (.str r.text))) ∧
    (∀ n ne tn, (c.file_rename tr n ne tn).1 = .error (.remoteError (.str r.text))) ∧
    (∀ n ne, (c.file_history tr n ne).1 = .error (.remoteError (.str r.text))) ∧
    (∀ n ne, (c.file_preview tr n ne).1 = .error (.remoteError (.str r.text))) ∧
    (∀ n ne, (c.file_download tr n ne).1 = .error (.remoteError (.str r.text))) ∧
    (∀ n pt ne privs, (["ent", "self"] : List String).contains pt = true →
      (privs.all fun item =>
        match item.privilege with
        | some p => validPrivileges.contains p
        | none => false) = true →
      (c.auth_create tr n pt ne privs).1 = .error (.remoteError (.str r.text))) ∧
    (∀ n pt ne uids, (["ent", "self"] : List String).contains pt = true →
      (c.auth_delete tr n pt ne uids).1 = .error (.remoteError (.str r.text))) ∧
    (∀ n pt ne, (["ent", "self"] : List String).contains pt = true →
      (c.auth_list tr n pt ne).1 = .error (.remoteError (.str r.text))) := by
  refine ⟨?_, ?_, ?_, ?_, ?_, ?_, ?_, ?_, ?_, ?_, ?_, ?_, ?_, ?_, ?_, ?_, ?_, ?_, ?_, ?_, ?_⟩
  · intro slug
    simp [Filez.token, sendRecv, htr, hst]
  · intro user
    unfold Filez.user_create
    rw [if_pos hchk]
    exact finishJson_remote tr r htr hst _
  · intro uid uslug hv
    unfold Filez.user_info
    rw [if_pos hchk]
    dsimp only
    rw [if_neg hv]
    exact finishJson_remote tr r htr hst _
  · intro pn ps
    unfold Filez.user_list
    rw [if_pos hchk]
    exact finishJson_remote tr r htr hst _
  · unfold Filez.team_list
    rw [if_pos hchk]
    exact finishJson_remote tr r htr hst _
  · intro tid
    unfold Filez.team_info
    rw [if_pos hchk]
    exact finishJson_remote tr r htr hst _
  · intro tid pn ps
    unfold Filez.team_user_list
    rw [if_pos hchk]
    exact finishJson_remote tr r htr hst _
  · intro path pn ps
    unfold Filez.file_list
    rw [if_pos hchk]
    exact finishJson_remote tr r htr hst _
  · intro neid nsid path hv
    unfold Filez.file_info
    rw [if_pos hchk]
    dsimp only
    rw [if_neg hv]
    cases neid with
    | none => exact finishJson_remote tr r htr hst _
    | some ne => exact finishJson_remote tr r htr hst _
  · intro nsid ne
    unfold Filez.file_delete
    rw [if_pos hchk]
    exact finishJson_remote tr r htr hst _
  · intro path pt
    unfold Filez.create_folder
    rw [if_pos hchk]
    exact finishJson_remote tr r htr hst _
  · intro n ne p pt
    unfold Filez.file_copy
    rw [if_pos hchk]
    exact finishJson_remote tr r htr hst _
  · intro n ne p pt
    unfold Filez.file_move
    rw [if_pos hchk]
    exact finishJson_remote tr r htr hst _
  · intro fp tp pt fb
    unfold Filez.file_upload
    rw [if_pos hchk]
    exact finishJson_remote tr r htr hst _
  · intro n ne tn
    unfold Filez.file_rename
    rw [if_pos hchk]
    exact finishJson_remote tr r htr hst _
  · intro n ne
    unfold Filez.file_history
    rw [if_pos hchk]
    exact finishJson_remote tr r htr hst _
  · intro n ne
    unfold Filez.file_preview
    rw [if_pos hchk]
    exact finishJson_remote tr r htr hst _
  · intro n ne
    unfold Filez.file_download
    rw [if_pos hchk]
    exact finishRaw_remote tr r htr hst _
  · intro n pt ne privs hpt hall
    unfold Filez.auth_create
    rw [if_pos hchk]
    dsimp only
    rw [if_neg (by rw [hpt]; simp), if_neg (by rw [hall]; simp)]
    exact finishJson_remote tr r htr hst _
  · intro n pt ne uids hpt
    unfold Filez.auth_delete
    rw [if_pos hchk]
    dsimp only
    rw [if_neg (by rw [hpt]; simp)]
    exact finishJson_remote tr r htr hst _
  · intro n pt ne hpt
    unfold Filez.auth_list
    rw [if_pos hchk]
    dsimp only
    rw [if_neg (by rw [hpt]; simp)]
    exact finishJson_remote tr r htr hst _

/-- Witness for C4 (amended) at team_info(99) against a concrete 404: the
RemoteError payload is exactly the mock's response body. -/
theorem c4_remote_error_raw_body_witness :
    check_token demoAuthClient.access_token = true ∧
    notFoundResp.status_code ≠ 200 ∧
    (demoAuthClient.team_info (respTr notFoundResp) 99).1
      = .error (.remoteError (.str notFoundResp.text)) := by
  have h := c4_remote_error_raw_body demoAuthClient rfl notFoundResp (by decide)
    (respTr notFoundResp) (fun _ => rfl)
  exact ⟨rfl, by decide, h.2.2.2.2.2.1 99⟩

/-- Claim C5: for every operation, a transport that raises a
ConnectionError-class exception makes the call fail with the
ConnectivityError, and a transport that raises any other exception makes it
fail with the UnknownError.  The two failure modes are captured by the
disjunctive hypothesis pairing the transport behaviour with the expected
error. -/
theorem c5_transport_failures (c : Filez) (hchk : check_token c.access_token = true)
    (tr : Transport) (e : FilezError)
    (he : ((∀ q, tr q = .connErr) ∧ e = .connectivityError) ∨
          ((∀ q, tr q = .otherErr) ∧ e = .unknownError)) :
    (∀ slug, (c.token tr slug).1 = .error e) ∧
    (∀ user, (c.user_create tr user).1 = .error e) ∧
    (∀ uid uslug, ¬(uid = none ∧ uslug = none) →
      (c.user_info tr uid uslug).1 = .error e) ∧
    (∀ pn ps, (c.user_list tr pn ps).1 = .error e) ∧
    ((c.team_list tr).1 = .error e) ∧
    (∀ tid, (c.team_info tr tid).1 = .error e) ∧
    (∀ tid pn ps, (c.team_user_list tr tid pn ps).1 = .error e) ∧
    (∀ path pn ps, (c.file_list tr path pn ps).1 = .error e) ∧
    (∀ neid nsid path, ¬(neid = none ∧ path = none) →
      (c.file_info tr neid nsid path).1 = .error e) ∧
    (∀ nsid ne, (c.file_delete tr nsid (some ne)).1 = .error e) ∧
    (∀ path pt, (c.create_folder tr path pt).1 = .error e) ∧
    (∀ n ne p pt, (c.file_copy tr n ne p pt).1 = .error e) ∧
    (∀ n ne p pt, (c.file_move tr n ne p pt).1 = .error e) ∧
    (∀ fp tp pt fb, (c.file_upload tr fp tp pt true fb).1 = .error e) ∧
    (∀ n ne tn, (c.file_rename tr n ne tn).1 = .error e) ∧
    (∀ n ne, (c.file_history tr n ne).1 = .error e) ∧
    (∀ n ne, (c.file_preview tr n ne).1 = .error e) ∧
    (∀ n ne, (c.file_download tr n ne).1 = .error e) ∧
    (∀ n pt ne privs, (["ent", "self"] : List String).contains pt = true →
      (privs.all fun item =>
        match item.privilege with
        | some p => validPrivileges.contains p
        | none => false) = true →
      (c.auth_create tr n pt ne privs).1 = .error e) ∧
    (∀ n pt ne uids, (["ent", "self"] : List String).contains pt = true →
      (c.auth_delete tr n pt ne uids).1 = .error e) ∧
    (∀ n pt ne, (["ent", "self"] : List String).contains pt = true →
      (c.auth_list tr n pt ne).1 = .error e) := by
  have herr : ∀ q, sendRecv tr q = .error e := by
    rcases he with ⟨htr, he⟩ | ⟨htr, he⟩ <;> intro q <;> unfold sendRecv <;> rw [htr, he]
  refine ⟨?_, ?_, ?_, ?_, ?_, ?_, ?_, ?_, ?_, ?_, ?_, ?_, ?_, ?_, ?_, ?_, ?_, ?_, ?_, ?_, ?_⟩
  · intro slug
    simp [Filez.token, herr]
  · intro user
    unfold Filez.user_create
    rw [if_pos hchk]
    exact finishJson_error tr e herr _
  · intro uid uslug hv
    unfold Filez.user_info
    rw [if_pos hchk]
    dsimp only
    rw [if_neg hv]
    exact finishJson_error tr e herr _
  · intro pn ps
    unfold Filez.user_list
    rw [if_pos hchk]
    exact finishJson_error tr e herr _
  · unfold Filez.team_list
    rw [if_pos hchk]
    exact finishJson_error tr e herr _
  · intro tid
    unfold Filez.team_info
    rw [if_pos hchk]
    exact finishJson_error tr e herr _
  · intro tid pn ps
    unfold Filez.team_user_list
    rw [if_pos hchk]
    exact finishJson_error tr e herr _
  · intro path pn ps
    unfold Filez.file_list
    rw [if_pos hchk]
    exact finishJson_error tr e herr _
  · intro neid nsid path hv
    unfold Filez.file_info
    rw [if_pos hchk]
    dsimp only
    rw [if_neg hv]
    cases neid with
    | none => exact finishJson_error tr e herr _
    | some ne => exact finishJson_error tr e herr _
  · intro nsid ne
    unfold Filez.file_delete
    rw [if_pos hchk]
    exact finishJson_error tr e herr _
  · intro path pt
    unfold Filez.create_folder
    rw [if_pos hchk]
    exact finishJson_error tr e herr _
  · intro n ne p pt
    unfold Filez.file_copy
    rw [if_pos hchk]
    exact finishJson_error tr e herr _
  · intro n ne p pt
    unfold Filez.file_move
    rw [if_pos hchk]
    exact finishJson_error tr e herr _
  · intro fp tp pt fb
    unfold Filez.file_upload
    rw [if_pos hchk]
    exact finishJson_error tr e herr _
  · intro n ne tn
    unfold Filez.file_rename
    rw [if_pos hchk]
    exact finishJson_error tr e herr _
  · intro n ne
    unfold Filez.file_history
    rw [if_pos hchk]
    exact finishJson_error tr e herr _
  · intro n ne
    unfold Filez.file_preview
    rw [if_pos hchk]
    exact finishJson_error tr e herr _
  · intro n ne
    unfold Filez.file_download
    rw [if_pos hchk]
    exact finishRaw_error tr e herr _
  · intro n pt ne privs hpt hall
    unfold Filez.auth_create
    rw [if_pos hchk]
    dsimp only
    rw [if_neg (by rw [hpt]; simp), if_neg (by rw [hall]; simp)]
    exact finishJson_error tr e herr _
  · intro n pt ne uids hpt
    unfold Filez.auth_delete
    rw [if_pos hchk]
    dsimp only
    rw [if_neg (by rw [hpt]; simp)]
    exact finishJson_error tr e herr _
  · intro n pt ne hpt
    unfold Filez.auth_list
    rw [if_pos hchk]
    dsimp only
    rw [if_neg (by rw [hpt]; simp)]
    exact finishJson_error tr e herr _

/-- Witness for C5: on the always-ConnectionError transport team_list fails
with the ConnectivityError, and on the always-other-exception transport it
fails with the UnknownError. -/
theorem c5_transport_failures_witness :
    check_token demoAuthClient.access_token = true ∧
    (demoAuthClient.team_list connTr).1 = .error .connectivityError ∧
    (demoAuthClient.team_list exnTr).1 = .error .unknownError :=
  ⟨rfl,
    (c5_transport_failures demoAuthClient rfl connTr .connectivityError
      (Or.inl ⟨fun _ => rfl, rfl⟩)).2.2.2.2.1,
    (c5_transport_failures demoAuthClient rfl exnTr .unknownError
      (Or.inr ⟨fun _ => rfl, rfl⟩)).2.2.2.2.1⟩

/-- The token exchange always issues exactly one POST to
`<base>/oauth/token`. -/
theorem token_trace_url (c : Filez) (tr : Transport) (slug : String) :
    (c.token tr slug).2.map HttpRequest.url = [c.base_url ++ "/oauth/token"] := by
  unfold Filez.token
  dsimp only
  split
  · rfl
  · split
    · rfl
    · split <;> rfl

/-- Counterexample to C9 as stated: team_info(99) sends its request to
`<base>/api/team/99`, not to the `<base>/team/99` endpoint the claim names
(the resource operations prefix `/api`, which the spec's endpoint table
omits). -/
theorem c9_team_info_url_counterexample :
    (demoAuthClient.team_info connTr 99).2.map HttpRequest.url = ["http://h/v2/api/team/99"] ∧
    ("http://h/v2/api/team/99" : String) ≠ "http://h/v2" ++ "/team/" ++ toString (99 : Int) := by
  constructor
  · have hchk : check_token demoAuthClient.access_token = true := rfl
    unfold Filez.team_info
    rw [if_pos hchk, finishJson_trace]
    rfl
  · decide

/-- Claim C9 (amended): every operation sends its single request to the base
URL `http(s)://<host>/<version>` followed by its endpoint, where the token
exchange posts to `/oauth/token` and user_create posts to `/user`, while all
other resource operations carry an `/api` prefix: `/api/user[...]`,
`/api/team[...]`, `/api/teamuser/<tid>/users`, `/api/file[...]`,
`/api/preview/<neid>`, and `/api/auth/batch_create`, `/api/auth/batch_delete`,
`/api/auth/list`. -/
theorem c9_request_urls (c : Filez) (hchk : check_token c.access_token = true)
    (tr : Transport) :
    (∀ slug, (c.token tr slug).2.map HttpRequest.url = [c.base_url ++ "/oauth/token"]) ∧
    (∀ user, (c.user_create tr user).2.map HttpRequest.url = [c.base_url ++ "/user"]) ∧
    (∀ u : Int, (u == 0) = false →
      (c.user_info tr (some u) none).2.map HttpRequest.url
        = [c.base_url ++ "/api/user" ++ "/" ++ toString u]) ∧
    (∀ sl : String, (sl == "") = false →
      (c.user_info tr none (some sl)).2.map HttpRequest.url
        = [c.base_url ++ "/api/user" ++ "/slug?user_slug=" ++ sl]) ∧
    (∀ pn ps, (c.user_list tr pn ps).2.map HttpRequest.url
        = [c.base_url ++ "/api/user" ++ "?page_num=" ++ toString pn
            ++ "&page_size=" ++ toString ps]) ∧
    ((c.team_list tr).2.map HttpRequest.url = [c.base_url ++ "/api/team"]) ∧
    (∀ tid, (c.team_info tr tid).2.map HttpRequest.url
        = [c.base_url ++ "/api/team/" ++ toString tid]) ∧
    (∀ tid pn ps, (c.team_user_list tr tid pn ps).2.map HttpRequest.url
        = [c.base_url ++ "/api/teamuser/" ++ toString tid ++ "/users?page_num="
            ++ toString pn ++ "&page_size=" ++ toString ps]) ∧
    (∀ path pn ps, (c.file_list tr path pn ps).2.map HttpRequest.url
        = [c.base_url ++ "/api/file"]) ∧
    (∀ ne n path, (c.file_info tr (some ne) (some n) path).2.map HttpRequest.url
        = [c.base_url ++ "/api/file" ++ "/" ++ ne ++ "/?nsid=" ++ toString n]) ∧
    (∀ n path, (c.file_info tr none n (some path)).2.map HttpRequest.url
        = [c.base_url ++ "/api/file" ++ "/path"]) ∧
    (∀ n ne, (c.file_delete tr (some n) (some ne)).2.map HttpRequest.url
        = [c.base_url ++ "/api/file" ++ "/" ++ ne ++ "?nsid=" ++ toString n]) ∧
    (∀ path pt, (c.create_folder tr path pt).2.map HttpRequest.url
        = [c.base_url ++ "/api/file/folder"]) ∧
    (∀ n ne p pt, (c.file_copy tr n ne p pt).2.map HttpRequest.url
        = [c.base_url ++ "/api/file/copy"]) ∧
    (∀ n ne p pt, (c.file_move tr n ne p pt).2.map HttpRequest.url
        = [c.base_url ++ "/api/file/move"]) ∧
    (∀ fp tp pt fb, (c.file_upload tr fp tp pt true fb).2.map HttpRequest.url
        = [c.base_url ++ "/api/file/content"]) ∧
    (∀ n ne tn, (c.file_rename tr n ne tn).2.map HttpRequest.url
        = [c.base_url ++ "/api/file/rename"]) ∧
    (∀ n ne, (c.file_history tr n ne).2.map HttpRequest.url
        = [c.base_url ++ "/api/file/" ++ ne ++ "/revision?nsid=" ++ toString n]) ∧
    (∀ n ne, (c.file_preview tr n ne).2.map HttpRequest.url
        = [c.base_url ++ "/api/preview/" ++ ne ++ "?nsid=" ++ toString n]) ∧
    (∀ n ne, (c.file_download tr n ne).2.map HttpRequest.url
        = [c.base_url ++ "/api/file/content/download?neid=" ++ ne
            ++ "&nsid=" ++ toString n]) ∧
    (∀ n pt ne privs, (["ent", "self"] : List String).contains pt = true →
      (privs.all fun item =>
        match item.privilege with
        | some p => validPrivileges.contains p
        | none => false) = true →
      (c.auth_create tr n pt ne privs).2.map HttpRequest.url
        = [c.base_url ++ "/api/auth/batch_create"]) ∧
    (∀ n pt ne uids, (["ent", "self"] : List String).contains pt = true →
      (c.auth_delete tr n pt ne uids).2.map HttpRequest.url
        = [c.base_url ++ "/api/auth/batch_delete"]) ∧
    (∀ n pt ne, (["ent", "self"] : List String).contains pt = true →
      (c.auth_list tr n pt ne).2.map HttpRequest.url
        = [c.base_url ++ "/api/auth/list"]) := by
  refine ⟨?_, ?_, ?_, ?_, ?_, ?_, ?_, ?_, ?_, ?_, ?_, ?_, ?_, ?_, ?_, ?_, ?_, ?_, ?_, ?_,
    ?_, ?_, ?_⟩
  · intro slug
    exact token_trace_url c tr slug
  · intro user
    unfold Filez.user_create
    rw [if_pos hchk, finishJson_trace]
    rfl
  · intro u hu
    unfold Filez.user_info
    rw [if_pos hchk]
    dsimp only
    rw [if_neg (by simp)]
    simp [hu, finishJson_trace]
  · intro sl hsl
    unfold Filez.user_info
    rw [if_pos hchk]
    dsimp only
    rw [if_neg (by simp)]
    simp [hsl, finishJson_trace]
  · intro pn ps
    unfold Filez.user_list
    rw [if_pos hchk, finishJson_trace]
    rfl
  · unfold Filez.team_list
    rw [if_pos hchk, finishJson_trace]
    rfl
  · intro tid
    unfold Filez.team_info
    rw [if_pos hchk, finishJson_trace]
    rfl
  · intro tid pn ps
    unfold Filez.team_user_list
    rw [if_pos hchk, finishJson_trace]
    rfl
  · intro path pn ps
    unfold Filez.file_list
    rw [if_pos hchk, finishJson_trace]
    rfl
  · intro ne n path
    unfold Filez.file_info
    rw [if_pos hchk]
    dsimp only
    rw [if_neg (by simp)]
    rw [finishJson_trace]
    rfl
  · intro n path
    unfold Filez.file_info
    rw [if_pos hchk]
    dsimp only
    rw [if_neg (by simp)]
    rw [finishJson_trace]
    rfl
  · intro n ne
    unfold Filez.file_delete
    rw [if_pos hchk]
    dsimp only
    rw [finishJson_trace]
    rfl
  · intro path pt
    unfold Filez.create_folder
    rw [if_pos hchk, finishJson_trace]
    rfl
  · intro n ne p pt
    unfold Filez.file_copy
    rw [if_pos hchk, finishJson_trace]
    rfl
  · intro n ne p pt
    unfold Filez.file_move
    rw [if_pos hchk, finishJson_trace]
    rfl
  · intro fp tp pt fb
    unfold Filez.file_upload
    rw [if_pos hchk]
    dsimp only
    rw [if_neg (by simp), finishJson_trace]
    rfl
  · intro n ne tn
    unfold Filez.file_rename
    rw [if_pos hchk, finishJson_trace]
    rfl
  · intro n ne
    unfold Filez.file_history
    rw [if_pos hchk, finishJson_trace]
    rfl
  · intro n ne
    unfold Filez.file_preview
    rw [if_pos hchk, finishJson_trace]
    rfl
  · intro n ne
    unfold Filez.file_download
    rw [if_pos hchk, finishRaw_trace]
    rfl
  · intro n pt ne privs hpt hall
    unfold Filez.auth_create
    rw [if_pos hchk]
    dsimp only
    rw [if_neg (by rw [hpt]; simp), if_neg (by rw [hall]; simp)]
    rw [finishJson_trace]
    rfl
  · intro n pt ne uids hpt
    unfold Filez.auth_delete
    rw [if_pos hchk]
    dsimp only
    rw [if_neg (by rw [hpt]; simp)]
    rw [finishJson_trace]
    rfl
  · intro n pt ne hpt
    unfold Filez.auth_list
    rw [if_pos hchk]
    dsimp only
    rw [if_neg (by rw [hpt]; simp)]
    rw [finishJson_trace]
    rfl

/-- Witness for C9 (amended): concrete URLs of the token exchange,
user_create, team_info(99) and auth_list on the demo client. -/
theorem c9_request_urls_witness :
    check_token demoAuthClient.access_token = true ∧
    (demoAuthClient.token connTr "admin").2.map HttpRequest.url = ["http://h/v2/oauth/token"] ∧
    (demoAuthClient.user_create connTr demoUser).2.map HttpRequest.url = ["http://h/v2/user"] ∧
    (demoAuthClient.team_info connTr 99).2.map HttpRequest.url = ["http://h/v2/api/team/99"] ∧
    (demoAuthClient.auth_list connTr 1 "ent" "n1").2.map HttpRequest.url
      = ["http://h/v2/api/auth/list"] := by
  have h := c9_request_urls demoAuthClient rfl connTr
  refine ⟨rfl, ?_, ?_, ?_, ?_⟩
  · exact h.1 "admin"
  · exact h.2.1 demoUser
  · exact h.2.2.2.2.2.2.1 99
  · exact h.2.2.2.2.2.2.2.2.2.2.2.2.2.2.2.2.2.2.2.2.2.2 1 "ent" "n1" (by decide)
